import Mathlib

/-!
Verification of the WATCHKEEPER Testing Edition collection-and-analysis
pipeline.  The Python sources are shallowly embedded as executable Lean
definitions: pure computations become Lean functions, external effects
(HTTP transport, feed parsing, HTML selection, the NLTK sentence
tokenizer, wall-clock time) become explicit parameters, and the two
places where cooperative suspension matters (the AI throttle and the
sweep reentrancy flag) become small step machines over explicit event
lists.  Machine floats are idealized as exact rationals.
-/

set_option maxRecDepth 4000

namespace WK

/-! ## Character and string helpers (List Char based, all structural) -/

/-- Whitespace set used by Python `str.split()` / `str.strip()` / `\s`
(ASCII part; the sources only process ASCII-relevant text). -/
def isWs (c : Char) : Bool :=
  c = ' ' ∨ c = '\n' ∨ c = '\t' ∨ c = '\r' ∨ c = '\x0b' ∨ c = '\x0c'

/-- Test whether `n` is a leading segment of `h`. -/
def startsL : List Char → List Char → Bool
  | [], _ => true
  | _ :: _, [] => false
  | a :: as, b :: bs => a = b && startsL as bs

/-- Test whether `n` occurs as a contiguous segment of `h`
(Python `n in h` on strings). -/
def subL (n : List Char) : List Char → Bool
  | [] => n.isEmpty
  | c :: t => startsL n (c :: t) || subL n t

/-- Tail-recursive list length (keeps kernel evaluation depth flat on
the long character lists this development evaluates). -/
def lenL : List Char → Nat → Nat
  | [], acc => acc
  | _ :: t, acc => lenL t (acc + 1)

/-- Tail-recursive lowercasing core. -/
def lowerAux : List Char → List Char → List Char
  | [], acc => acc.reverse
  | c :: t, acc => lowerAux t (c.toLower :: acc)

/-- Lowercase a string (Python `str.lower`, ASCII range). -/
def lowerS (s : String) : String := String.mk (lowerAux s.data [])

/-- Helper for `wordCount`: the Bool records whether the previous
character was inside a word. -/
def wordCountAux : List Char → Bool → Nat → Nat
  | [], _, acc => acc
  | c :: t, inw, acc =>
    if isWs c then wordCountAux t false acc
    else wordCountAux t true (if inw then acc else acc + 1)

/-- Number of whitespace-separated words, Python `len(text.split())`. -/
def wordCount (s : String) : Nat := wordCountAux s.data false 0

/-- Strip leading whitespace. -/
def dropWsL (l : List Char) : List Char := l.dropWhile (fun c => isWs c)

/-- Strip both ends (Python `str.strip()`, also the `\s*` trimming done
by the fence regex in `_extract_json_from_response`). -/
def trimL (l : List Char) : List Char := (dropWsL ((dropWsL l).reverse)).reverse

/-- String version of `trimL`. -/
def trimS (s : String) : String := String.mk (trimL s.data)

/-! ## Threat enumerations (src/src/models/threat.py) -/

/-- The `ThreatCategory` enum, declared in the source in exactly this order. -/
inductive ThreatCategory where
  | political_unrest
  | transport_disruption
  | weather_emergency
  | security_incident
  | economic_impact
  | health_emergency
deriving DecidableEq, Repr

/-- The `ThreatCategory.value` string payload of the Python enum. -/
def categoryValue : ThreatCategory → String
  | .political_unrest => "political_unrest"
  | .transport_disruption => "transport_disruption"
  | .weather_emergency => "weather_emergency"
  | .security_incident => "security_incident"
  | .economic_impact => "economic_impact"
  | .health_emergency => "health_emergency"

/-- Declaration position of a category in the Python enum. -/
def catIdx : ThreatCategory → Nat
  | .political_unrest => 0
  | .transport_disruption => 1
  | .weather_emergency => 2
  | .security_incident => 3
  | .economic_impact => 4
  | .health_emergency => 5

/-- The six enum members in declaration order. -/
def categoryOrder : List ThreatCategory :=
  [.political_unrest, .transport_disruption, .weather_emergency,
   .security_incident, .economic_impact, .health_emergency]

/-- The `ThreatStatus` enum. -/
inductive ThreatStatus where
  | active
  | monitoring
  | resolved
deriving DecidableEq, Repr

/-- The `ThreatStatus.value` string payload. -/
def statusValue : ThreatStatus → String
  | .active => "active"
  | .monitoring => "monitoring"
  | .resolved => "resolved"

/-- Inverse of `categoryValue`; `ThreatCategory(s)` raises on a
non-member, which callers turn into the `security_incident` default. -/
def parseThreatCategory (s : String) : Option ThreatCategory :=
  categoryOrder.find? (fun c => categoryValue c = s)

/-- Inverse of `statusValue`. -/
def parseThreatStatus (s : String) : Option ThreatStatus :=
  [ThreatStatus.active, .monitoring, .resolved].find? (fun st => statusValue st = s)

/-! ## Fallback keyword analysis (AIProcessor._fallback_analysis) -/

/-- The `keywords` table of `_fallback_analysis`, in the insertion order
of the Python dict literal (which coincides with enum declaration
order). -/
def fallbackKeywords : List (ThreatCategory × List String) :=
  [(.political_unrest,
     ["protest", "riot", "demonstration", "unrest", "coup", "revolution",
      "political crisis", "civil unrest", "uprising"]),
   (.transport_disruption,
     ["delay", "cancel", "strike", "airport", "railway", "road block",
      "traffic", "transport", "travel warning", "border closed"]),
   (.weather_emergency,
     ["storm", "flood", "hurricane", "tornado", "typhoon", "earthquake",
      "tsunami", "landslide", "wildfire", "extreme weather"]),
   (.security_incident,
     ["attack", "terrorism", "shooting", "explosion", "bomb", "hostage",
      "kidnap", "threat", "security alert", "evacuation"]),
   (.economic_impact,
     ["inflation", "recession", "currency", "economic crisis", "financial",
      "market crash", "bank", "shortage", "price increase", "devaluation"]),
   (.health_emergency,
     ["outbreak", "epidemic", "pandemic", "virus", "disease", "infection",
      "quarantine", "health alert", "medical", "hospital"])]

/-- Embeds `sum(1 for keyword in kws if keyword in text_lower)`. -/
def hitCount (kws : List String) (textLower : List Char) : Nat :=
  kws.countP (fun kw => subL kw.data textLower)

/-- Keyword hits of one category against (already lowercased) text. -/
def catHits (c : ThreatCategory) (textLower : List Char) : Nat :=
  hitCount (((fallbackKeywords.find? (fun p => p.1 = c)).map (·.2)).getD []) textLower

/-- The `category_scores` dict `{category.value: score}` in insertion
order. -/
def category_scores (text : String) : List (String × Nat) :=
  let tl := (lowerS text).data
  fallbackKeywords.map (fun p => (categoryValue p.1, hitCount p.2 tl))

/-- Python `max(d, key=d.get)`: the first key, in insertion order, whose
value is maximal (replacement happens only on a strictly greater
value). -/
def pyMaxFst : List (String × Nat) → String
  | [] => ""
  | p :: t => (t.foldl (fun best q => if best.2 < q.2 then q else best) p).1

/-- The `primary_category` chosen by `_fallback_analysis`. -/
def primary_category (text : String) : String := pyMaxFst (category_scores text)

/-- Embeds `total_matches = sum(category_scores.values())`. -/
def totalMatches (text : String) : Nat := ((category_scores text).map (·.2)).sum

/-- Embeds `severity = min(10, max(1, int(keyword_density * 100)))` with
`keyword_density = total_matches / max(1, len(text.split()))`.  Python's
`int()` on a non-negative float truncates, which for these exact
rationals is floor division, embedded as Nat division. -/
def fallbackSeverity (text : String) : Nat :=
  min 10 (max 1 ((100 * totalMatches text) / max 1 (wordCount text)))

/-! ## JSON values (the flat-object fragment that the pipeline reads and
writes; nested objects/arrays never occur in the dicts the code builds,
and the embedded parser simply fails on them exactly as it fails on any
other text the model might emit) -/

/-- A JSON value.  A number is kept as the exact scaled decimal it was
written as: `jnum n d` denotes `n / d` with `d` a power of ten (`d = 1`
for Python ints; floats idealized as exact decimals).  All numbers the
pipeline produces and re-reads are canonical in this form, so
structural equality is value equality on them. -/
inductive JVal where
  | jstr (s : String)
  | jnum (num : Int) (den : Nat)
  | jbool (b : Bool)
  | jnull
deriving DecidableEq, Repr

/-- Comparison `a < b` on scaled decimals (denominators are positive powers of
ten, so cross-multiplying preserves order). -/
def numLtB (a b : Int × Nat) : Bool := a.1 * (b.2 : Int) < b.1 * (a.2 : Int)

/-- A Python dict with string keys, in insertion order. -/
abbrev Assoc := List (String × JVal)

/-- Dict lookup `d.get(k)` / `d[k]`. -/
def jget : Assoc → String → Option JVal
  | [], _ => none
  | (k, v) :: t, key => if k = key then some v else jget t key

/-- Dict write `d[k] = v` (overwrite in place or append). -/
def jset : Assoc → String → JVal → Assoc
  | [], key, v => [(key, v)]
  | (k, w) :: t, key, v =>
    if k = key then (k, v) :: t else (k, w) :: jset t key v

/-- Numeric `d.get(k, dflt)` for the comparisons in the pipeline.  The
claims only exercise numeric payloads; a non-numeric payload would make
the Python comparison raise `TypeError`, caught by the surrounding
per-article handler. -/
def jgetNum (d : Assoc) (key : String) (dflt : Int × Nat) : Int × Nat :=
  match jget d key with
  | some (.jnum n den) => (n, den)
  | _ => dflt

/-- String `analysis.get(k)` for optional fields (country/city): JSON
`null` and a missing key both produce Python `None`. -/
def jgetStrOpt (d : Assoc) (key : String) : Option String :=
  match jget d key with
  | some (.jstr s) => some s
  | _ => none

/-! ### json.dumps for the dicts the fallback produces -/

/-- Escape one character as `json.dumps` does (the inputs here are
ASCII; `\uXXXX` escapes for other control characters never arise). -/
def escC (c : Char) : String :=
  if c = '"' then "\\\""
  else if c = '\\' then "\\\\"
  else if c = '\n' then "\\n"
  else if c = '\t' then "\\t"
  else if c = '\r' then "\\r"
  else String.singleton c

/-- Tail-recursive escaping core (reversed accumulator). -/
def escAux : List Char → List Char → List Char
  | [], acc => acc.reverse
  | c :: t, acc => escAux t ((escC c).data.reverse ++ acc)

/-- Escape a string for JSON output. -/
def escS (s : String) : String := String.mk (escAux s.data [])

/-- Serialize a number.  The pipeline only ever dumps non-negative
integers and the constant `0.3`, so one decimal digit suffices. -/
def dumpNum (n : Int) (d : Nat) : String :=
  if d = 1 then toString n
  else toString (n / 10) ++ "." ++ toString (n % 10)

/-- Serialize one value. -/
def dumpVal : JVal → String
  | .jstr s => "\"" ++ escS s ++ "\""
  | .jnum n d => dumpNum n d
  | .jbool b => if b then "true" else "false"
  | .jnull => "null"

/-- Embeds `json.dumps(d)` with the default `", "` / `": "` separators. -/
def jdumps (d : Assoc) : String :=
  "\x7b" ++
    String.intercalate ", "
      (d.map (fun p => "\"" ++ escS p.1 ++ "\": " ++ dumpVal p.2)) ++
  "\x7d"

/-! ### json.loads on the flat-object fragment -/

/-- Skip JSON whitespace. -/
def skipWs : List Char → List Char
  | [] => []
  | c :: t => if isWs c then skipWs t else c :: t

/-- Unescape one escaped character. -/
def unescC (c : Char) : Option Char :=
  if c = '"' then some '"'
  else if c = '\\' then some '\\'
  else if c = '/' then some '/'
  else if c = 'n' then some '\n'
  else if c = 't' then some '\t'
  else if c = 'r' then some '\r'
  else none

/-- Parse the remainder of a string literal (the opening quote already
consumed); the first argument accumulates the payload reversed.
Returns the payload and the rest. -/
def parseStrAux : List Char → List Char → Option (List Char × List Char)
  | _, [] => none
  | acc, '"' :: t => some (acc.reverse, t)
  | acc, '\\' :: e :: t =>
    match unescC e with
    | some c => parseStrAux (c :: acc) t
    | none => none
  | acc, c :: t => parseStrAux (c :: acc) t

/-- Split a leading run of decimal digits. -/
def spanDigits : List Char → (List Char × List Char)
  | [] => ([], [])
  | c :: t =>
    if c.isDigit then
      let (ds, r) := spanDigits t
      (c :: ds, r)
    else ([], c :: t)

/-- Digits to a natural number. -/
def digitsVal (ds : List Char) : Nat :=
  ds.foldl (fun acc c => 10 * acc + (c.toNat - 48)) 0

/-- Parse a JSON number (integer or plain decimal; exponents never
occur in the dicts this code round-trips), as a scaled decimal. -/
def parseNum (l : List Char) : Option ((Int × Nat) × List Char) :=
  let (neg, l1) := match l with
    | '-' :: t => (true, t)
    | _ => (false, l)
  let (ip, l2) := spanDigits l1
  if ip.isEmpty then none
  else
    match l2 with
    | '.' :: t =>
      let (fp, l3) := spanDigits t
      if fp.isEmpty then none
      else
        let den := (10 : Nat) ^ fp.length
        let n : Int := (digitsVal ip * den + digitsVal fp : Nat)
        some ((if neg then -n else n, den), l3)
    | _ =>
      let n : Int := (digitsVal ip : Nat)
      some ((if neg then -n else n, 1), l2)

/-- Parse one scalar value. -/
def parseVal (l : List Char) : Option (JVal × List Char) :=
  match skipWs l with
  | '"' :: t => do
    let (s, r) ← parseStrAux [] t
    pure (.jstr (String.mk s), r)
  | 't' :: 'r' :: 'u' :: 'e' :: t => some (.jbool true, t)
  | 'f' :: 'a' :: 'l' :: 's' :: 'e' :: t => some (.jbool false, t)
  | 'n' :: 'u' :: 'l' :: 'l' :: t => some (.jnull, t)
  | l' => (parseNum l').map (fun p => (.jnum p.1.1 p.1.2, p.2))

/-- Parse the members of an object, closing brace included; fuel bounds
the recursion. -/
def parseMembers : Nat → List Char → Option (Assoc × List Char)
  | 0, _ => none
  | fuel + 1, l =>
    match skipWs l with
    | '"' :: t => do
      let (k, r) ← parseStrAux [] t
      match skipWs r with
      | ':' :: r2 => do
        let (v, r3) ← parseVal r2
        match skipWs r3 with
        | ',' :: r4 => do
          let (d, r5) ← parseMembers fuel r4
          pure ((String.mk k, v) :: d, r5)
        | '\x7d' :: r4 => pure ([(String.mk k, v)], r4)
        | _ => none
      | _ => none
    | _ => none

/-- Embeds `json.loads` on the flat-object fragment: a whole-string object or
nothing (matching how `_extract_json_from_response` consumes it: any
parse failure is a `JSONDecodeError`). -/
def jparse (s : String) : Option Assoc :=
  match skipWs s.data with
  | '\x7b' :: t =>
    match skipWs t with
    | '\x7d' :: r => if (skipWs r).isEmpty then some [] else none
    | t2 =>
      match parseMembers (lenL t2 1) t2 with
      | some (d, r) => if (skipWs r).isEmpty then some d else none
      | none => none
  | _ => none

/-! ## AIProcessor._extract_json_from_response -/

/-- Index of the first occurrence of `n` in `h` starting the count at
`i`, tail-recursively. -/
def findSubAux (n : List Char) : List Char → Nat → Option Nat
  | [], i => if n.isEmpty then some i else none
  | c :: t, i =>
    if startsL n (c :: t) then some i
    else findSubAux n t (i + 1)

/-- Index of the first occurrence of `n` in `h`, if any. -/
def findSub (n h : List Char) : Option Nat := findSubAux n h 0

/-- The span captured by `re.search(r'```json\s*(.*?)\s*```', s,
re.DOTALL)`: from the first occurrence of the opening fence to the next
occurrence of ` ``` `, trimmed of surrounding whitespace. -/
def fenceSpan (l : List Char) : Option (List Char) := do
  let i ← findSub "```json".data l
  let after := l.drop (i + 7)
  let j ← findSub "```".data after
  pure (trimL (after.take j))

/-- The span captured by `re.search(r'(\{.*\})', s, re.DOTALL)`: from
the first opening brace to the last closing brace (greedy `.*`). -/
def braceSpan (l : List Char) : Option (List Char) := do
  let i ← findSub ['\x7b'] l
  let j ← findSub ['\x7d'] l.reverse
  let k := lenL l 0 - 1 - j
  if i < k then pure (l.drop i |>.take (k - i + 1)) else none

/-- Embeds `_extract_json_from_response`: two-tier pattern match, then parse;
every failure yields the empty dict. -/
def extract_json_from_response (response : String) : Assoc :=
  let l := response.data
  let json_str :=
    match fenceSpan l with
    | some inner => inner
    | none =>
      match braceSpan l with
      | some s => s
      | none => l
  match jparse (String.mk json_str) with
  | some d => d
  | none => []

/-! ## AIProcessor.analyze_article and its prompt -/

/-- The fixed part of the analysis prompt before the source name
(transcribed byte-for-byte from the f-string in `analyze_article`,
including the 8-space indentation each line carries there). -/
def promptPre : String :=
  "\n        You are an intelligence analyst for missionary operations. Analyze the following news article for potential threats to missionary safety and operations.\n        \n        Article from "

/-- The fixed part of the prompt after the embedded article text. -/
def promptPost : String :=
  "\n        \n        Analyze this article and extract any potential threats to missionary operations. Return your analysis in JSON format with the following structure:\n        ```json\n        \x7b\n            \"title\": \"Brief title describing the threat\",\n            \"description\": \"Concise description of the threat (2-3 sentences)\",\n            \"category\": \"One of: political_unrest, transport_disruption, weather_emergency, security_incident, economic_impact, health_emergency\",\n            \"severity\": \"Numeric rating from 1-10 where 10 is most severe\",\n            \"confidence_score\": \"Confidence in this analysis from 0.0 to 1.0\",\n            \"missionary_relevance\": \"Relevance to missionary operations from 0-100\",\n            \"status\": \"One of: active, monitoring, resolved\",\n            \"country\": \"Country where the threat is occurring\",\n            \"city\": \"City or region where the threat is occurring (if mentioned)\"\n        \x7d\n        ```\n        \n        If there is no significant threat to missionary operations in this article, return:\n        ```json\n        \x7b\n            \"title\": \"No significant threat detected\",\n            \"description\": \"This article does not contain information about significant threats to missionary operations\",\n            \"category\": \"security_incident\",\n            \"severity\": 1,\n            \"confidence_score\": 0.9,\n            \"missionary_relevance\": 10,\n            \"status\": \"resolved\",\n            \"country\": null,\n            \"city\": null\n        \x7d\n        ```\n        \n        Only return the JSON. Do not include any other text in your response.\n        "

/-- The full prompt `analyze_article` builds for a source name and
article text. -/
def promptFor (source_name article_text : String) : String :=
  promptPre ++ source_name ++ ":\n        " ++ article_text ++ promptPost

/-- Embeds `_fallback_analysis` as a dict (its Python return value is
`json.dumps` of exactly this dict).  `tok` stands for NLTK's trained
`sent_tokenize`, which is external to the repository and therefore a
parameter of the embedding. -/
def fallback_analysis (tok : String → List String) (text : String) : Assoc :=
  let primary := primary_category text
  let severity := fallbackSeverity text
  let sentences := tok text
  let summary := String.intercalate " " (sentences.take (min 3 sentences.length))
  let title :=
    if 100 < lenL summary.data 0 then String.mk (summary.data.take 100) ++ "..."
    else summary
  [("title", .jstr title),
   ("description", .jstr summary),
   ("category", .jstr primary),
   ("severity", .jnum (severity : Int) 1),
   ("confidence_score", .jnum 3 10),
   ("missionary_relevance", .jnum 50 1),
   ("status", .jstr (statusValue .monitoring))]

/-- Outcome of one attempt to POST to Ollama: an HTTP reply whose JSON
body carried the given `response` text, a timeout, or any other raised
exception (connection refused, unreachable host, bad reply body, ...). -/
inductive Transport where
  | ok (status : Nat) (body : String)
  | timeout
  | connError
deriving DecidableEq, Repr

/-- The failure modes that make `_make_ollama_request` substitute the
fallback: non-200 status, `asyncio.TimeoutError`, any other exception. -/
def transportFails : Transport → Bool
  | .ok status _ => status ≠ 200
  | .timeout => true
  | .connError => true

/-- Embeds `_make_ollama_request`: returns the model's `response` text on a
200 reply and the serialized fallback analysis of the *prompt* on every
failure mode. -/
def make_ollama_request (tok : String → List String) (t : Transport)
    (prompt : String) : String :=
  match t with
  | .ok status body =>
    if status = 200 then body else jdumps (fallback_analysis tok prompt)
  | .timeout => jdumps (fallback_analysis tok prompt)
  | .connError => jdumps (fallback_analysis tok prompt)

/-- Embeds `analyze_article`: build the prompt, request, extract, then attach
source metadata.  `nowIso` stands for `datetime.utcnow().isoformat()`.
Every exception point of the source is handled inside
`make_ollama_request` / `extract_json_from_response`, which is why this
embedding is a total function into `Assoc`. -/
def analyze_article (tok : String → List String) (t : Transport)
    (article_text source_name url nowIso : String) : Assoc :=
  let prompt := promptFor source_name article_text
  let response := make_ollama_request tok t prompt
  let analysis := extract_json_from_response response
  jset (jset (jset analysis "source_url" (.jstr url))
      "source_name" (.jstr source_name))
    "processed_at" (.jstr nowIso)

/-- A concrete sentence tokenizer used to instantiate `tok` in witness
evaluations: one sentence per period.  On the prompt template it yields
the same leading sentences as NLTK punkt (the template's first three
sentence breaks are plain periods followed by spaces). -/
def splitDotsAux : List Char → List Char → List String
  | [], acc => if acc.isEmpty then [] else [String.mk acc.reverse]
  | c :: t, acc =>
    if c = '.' then String.mk (acc.reverse ++ ['.']) :: splitDotsAux t []
    else splitDotsAux t (c :: acc)

/-- See `splitDotsAux`. -/
def tokNaive (s : String) : List String := splitDotsAux s.data []

/-! ## BaseCollector.extract_article_content
(src/src/collectors/base_collector.py, lines 145-177)

`fetch_url` returning `None` (timeout, non-200, exception) is the
`none` case of the first argument; a fetched page is abstracted as the
function BeautifulSoup's `select` gives from a CSS selector to the
`get_text` strings of its matching elements. -/

/-- Embeds `extract_article_content`: concatenates, over the selectors in
order and their elements in order, each element text followed by a
blank line; strips the result; returns `None` when the fetch failed or
nothing was extracted. -/
def extract_article_content (fetched : Option (String → List String))
    (content_selectors : List String) : Option String :=
  match fetched with
  | none => none
  | some doc =>
    let content := content_selectors.foldl
      (fun acc sel => (doc sel).foldl (fun a t => a ++ t ++ "\n\n") acc) ""
    let c := trimS content
    if c = "" then none else some c

/-! ## ThreatAnalyzer.update_threat_statuses
(src/src/services/threat_analyzer.py, lines 241-282)

The session is created with `autoflush=False`, so the second query's
WHERE clause is evaluated against the stored statuses, not against the
in-memory updates of the first phase; since the two phases select on
the disjoint stored statuses ACTIVE and MONITORING, each row is
affected by at most one phase.  The two `datetime.utcnow()` calls are
idealized as one instant `now` (seconds). -/

/-- A persisted threat row, reduced to the fields the status updater
touches. -/
structure ThreatRow where
  status : ThreatStatus
  created_at : Int
deriving DecidableEq, Repr

/-- One day in seconds. -/
def daySec : Int := 86400

/-- Embeds `update_threat_statuses`: ACTIVE rows strictly older than 7 days
become MONITORING; MONITORING rows strictly older than 30 days become
RESOLVED; returns the new rows and the two update counts. -/
def update_threat_statuses (now : Int) (rows : List ThreatRow) :
    List ThreatRow × Nat × Nat :=
  let toMon := rows.countP
    (fun r => r.status = .active ∧ r.created_at < now - 7 * daySec)
  let toRes := rows.countP
    (fun r => r.status = .monitoring ∧ r.created_at < now - 30 * daySec)
  (rows.map (fun r =>
      if r.status = .active ∧ r.created_at < now - 7 * daySec then
        { r with status := .monitoring }
      else if r.status = .monitoring ∧ r.created_at < now - 30 * daySec then
        { r with status := .resolved }
      else r),
   toMon, toRes)

/-! ## TestingCollectionManager (src/src/services/news_collector.py)

External effects become an explicit environment: the parsed feed of a
URL, the article-content fetch (`_fetch_article_content`, `None` on any
failure), the AI analysis result for an article (the dict
`analyze_article` returns), geolocation, and the clock.  Database
counter updates on `Source` rows and the fire-and-forget WebSocket
broadcast have no bearing on any claim and are not tracked. -/

/-- One feedparser entry, reduced to the fields the collector reads. -/
structure FeedEntry where
  title : String
  link : String
  published : String
deriving DecidableEq, Repr

/-- A `Source` row, reduced to the fields `run_collection` and
`collect_from_source` read. -/
structure SourceRec where
  id : String
  name : String
  url : String
  source_type : String
  is_active : Bool
  last_collected_at : Option Int
  collection_frequency : Int
deriving DecidableEq, Repr

/-- The environment of one sweep. -/
structure CollectEnv where
  feedOf : String → List FeedEntry
  fetchContent : String → Option String
  analyzeRes : String → String → String → Assoc
  geoOf : String → Option String → Option (Int × Nat) × Option (Int × Nat)
  nowSec : Int

/-- A `Threat` row as `_process_article` constructs it (fields that
carry wall-clock timestamps or the raw excerpt are kept verbatim from
the inputs). -/
structure ThreatNew where
  title : String
  description : String
  content : String
  latitude : Option (Int × Nat)
  longitude : Option (Int × Nat)
  country : Option String
  city : Option String
  severity : Int × Nat
  category : ThreatCategory
  status : ThreatStatus
  confidence_score : Int × Nat
  missionary_relevance : Int × Nat
  source_url : String
  source_name : String
deriving DecidableEq, Repr

/-- Embeds `analysis.get("title", title[:255])` etc. -/
def jgetStrD (d : Assoc) (key dflt : String) : String :=
  match jget d key with
  | some (.jstr s) => s
  | _ => dflt

/-- Embeds `_process_article`: analyze, threshold-filter, geolocate, build the
row.  Returns the Python result (`True` unless an exception escaped,
which the pure environment cannot produce) and the row persisted, if
any.  Articles failing the severity/relevance threshold count as
processed but persist nothing. -/
def process_article (env : CollectEnv) (title content url source_name : String) :
    Bool × Option ThreatNew :=
  let article_text := title ++ "\n\n" ++ content
  let analysis := env.analyzeRes article_text source_name url
  if numLtB (jgetNum analysis "severity" (0, 1)) (2, 1) ∨
     numLtB (jgetNum analysis "missionary_relevance" (0, 1)) (20, 1) then
    (true, none)
  else
    let country := jgetStrOpt analysis "country"
    let city := jgetStrOpt analysis "city"
    let geo := match country with
      | some ctry => if ctry = "" then (none, none) else env.geoOf ctry city
      | none => (none, none)
    let category :=
      match jget analysis "category" with
      | some (.jstr s) => (parseThreatCategory s).getD .security_incident
      | none => .security_incident
      | _ => .security_incident
    let status :=
      match jget analysis "status" with
      | some (.jstr s) => (parseThreatStatus s).getD .active
      | none => .active
      | _ => .active
    (true, some
      { title := jgetStrD analysis "title" (String.mk (title.data.take 255))
        description := jgetStrD analysis "description" ""
        content := String.mk (content.data.take 10000)
        latitude := geo.1
        longitude := geo.2
        country := country
        city := city
        severity := jgetNum analysis "severity" (5, 1)
        category := category
        status := status
        confidence_score := jgetNum analysis "confidence_score" (5, 10)
        missionary_relevance := jgetNum analysis "missionary_relevance" (50, 1)
        source_url := url
        source_name := source_name })

/-- Per-source statistics dict (`duration_seconds` is wall clock and
not modeled). -/
structure SrcResult where
  source_id : String
  source_name : String
  articles_collected : Nat
  articles_processed : Nat
  errors : Nat
deriving DecidableEq, Repr

/-- Accumulator of the entry loop in `collect_from_source`. -/
structure LoopAcc where
  collected : Nat
  processed : Nat
  errors : Nat
  threats : List ThreatNew
deriving Repr

/-- One iteration of the RSS entry loop: skip entries without a link,
count a fetch failure as an error, otherwise analyze (persisting when
the thresholds pass) and count the article as collected and
processed — the boolean `_process_article` returns is not consulted. -/
def rssStep (env : CollectEnv) (source : SourceRec) (acc : LoopAcc)
    (entry : FeedEntry) : LoopAcc :=
  if entry.link = "" then acc
  else
    match env.fetchContent entry.link with
    | none => { acc with errors := acc.errors + 1 }
    | some content =>
      let r := process_article env entry.title content entry.link source.name
      { acc with
          collected := acc.collected + 1
          processed := acc.processed + 1
          threats := acc.threats ++ r.2.toList }

/-- The `MAX_ARTICLES_PER_SOURCE` setting (src/src/core/config.py). -/
def maxArticlesPerSource : Nat := 10

/-- Embeds `collect_from_source` for an RSS source (the claims only exercise
the `rss_feed` branch; a non-RSS source falls through both branches and
reports zero activity, as the source does when `source_type` matches
neither string). -/
def collect_from_source (env : CollectEnv) (source : SourceRec) :
    SrcResult × List ThreatNew :=
  if source.source_type = "rss_feed" then
    let entries := env.feedOf source.url
    if entries.isEmpty then
      ({ source_id := source.id, source_name := source.name,
         articles_collected := 0, articles_processed := 0, errors := 1 }, [])
    else
      let acc := (entries.take maxArticlesPerSource).foldl (rssStep env source)
        { collected := 0, processed := 0, errors := 0, threats := [] }
      ({ source_id := source.id, source_name := source.name,
         articles_collected := acc.collected,
         articles_processed := acc.processed,
         errors := acc.errors }, acc.threats)
  else
    ({ source_id := source.id, source_name := source.name,
       articles_collected := 0, articles_processed := 0, errors := 0 }, [])

/-- The dict `run_collection` returns: the distinguished
`already_running` dict, or the completed report (durations omitted). -/
inductive RunRep where
  | alreadyRunning
  | completed (sources_processed articles_collected articles_processed errors : Nat)
deriving DecidableEq, Repr

/-- Here `COLLECTION_FREQUENCY` is per-source `collection_frequency`
minutes; the skip test compares against `now - last_collected_at`
(seconds in this embedding). -/
def sourceEligible (env : CollectEnv) (forced : Option String)
    (s : SourceRec) : Bool :=
  match s.last_collected_at with
  | some t => ¬(env.nowSec - t < s.collection_frequency * 60 ∧ forced = none)
  | none => true

/-- Embeds `run_collection`: the reentrancy guard, active-source selection,
per-source staleness skip, sequential collection, and the aggregate
report.  Checking and setting `self.running` spans no `await`, so under
the cooperative scheduler it is one atomic step; this sequential
function gives the whole call's effect, and the machine below gives the
interleaved two-caller behaviour. -/
def run_collection (env : CollectEnv) (running : Bool)
    (sources : List SourceRec) (source_id : Option String) :
    RunRep × List ThreatNew × Bool :=
  if running then (.alreadyRunning, [], running)
  else
    let active := sources.filter (fun (s : SourceRec) => s.is_active)
    let selected := match source_id with
      | some sid => active.filter (fun (s : SourceRec) => s.id == sid)
      | none => active
    if selected.isEmpty then (.completed 0 0 0 0, [], false)
    else
      let eligible := selected.filter (sourceEligible env source_id)
      let results := eligible.map (collect_from_source env)
      (.completed results.length
        (results.map (fun (r : SrcResult × List ThreatNew) => r.1.articles_collected)).sum
        (results.map (fun (r : SrcResult × List ThreatNew) => r.1.articles_processed)).sum
        (results.map (fun (r : SrcResult × List ThreatNew) => r.1.errors)).sum,
       (results.map (fun (r : SrcResult × List ThreatNew) => r.2)).flatten,
       false)

/-! ## AIProcessor._throttle_requests
(src/src/services/ai_processor.py, lines 55-65)

The method reads the clock, sleeps out the remainder of the
configured interval if the previous dispatch was too recent, and only
then stores the new `last_request_time`; the dispatch (the HTTP POST)
follows immediately.  Sequential behaviour is the pure `throttle_step`;
the interleaved behaviour of several cooperative callers is the
machine below, whose clock advances only by event-loop steps. -/

/-- One sequential throttle invocation at clock reading `now` with
stored `last_request_time = last`: returns the dispatch time and the
new stored value (the code stores the post-sleep clock reading, which
equals the dispatch time). -/
def throttle_step (d last now : ℚ) : ℚ × ℚ :=
  if now - last < d then (last + d, last + d) else (now, now)

/-- Events of the cooperative throttle machine: `enter t` runs task
`t`'s atomic segment from the top of `_throttle_requests` to its
`await asyncio.sleep` (or straight through when no sleep is needed, in
which case the dispatch happens in the same segment); `wake t` runs the
segment after the sleep (store `last_request_time`, dispatch);
`advance δ` lets the event loop clock progress. -/
inductive ThrEv where
  | enter (t : Nat)
  | wake (t : Nat)
  | advance (δ : Int)
deriving DecidableEq, Repr

/-- Throttle machine state: the virtual clock, the shared
`last_request_time`, the sleeping tasks with their wake deadlines, and
the dispatch log `(task, time)` in order.  Times are integral seconds
(`PROCESSING_DELAY` is an integer number of seconds). -/
structure ThrSt where
  time : Int
  last : Int
  sleeping : List (Nat × Int)
  dispatches : List (Nat × Int)
deriving DecidableEq, Repr

/-- One machine transition. -/
def thrStep (d : Int) (st : ThrSt) : ThrEv → ThrSt
  | .enter t =>
    if st.time - st.last < d then
      { st with sleeping := st.sleeping ++ [(t, st.last + d)] }
    else
      { st with last := st.time, dispatches := st.dispatches ++ [(t, st.time)] }
  | .wake t =>
    match st.sleeping.find? (fun p => p.1 == t) with
    | some p =>
      if p.2 ≤ st.time then
        { st with
            sleeping := st.sleeping.filter (fun q => q.1 ≠ t)
            last := st.time
            dispatches := st.dispatches ++ [(t, st.time)] }
      else st
    | none => st
  | .advance δ => { st with time := st.time + δ }

/-- Run the throttle machine from an idle start (`last_request_time`
initialized to 0 as in `AIProcessor.__init__`, clock at 0). -/
def runThr (d : Int) (evs : List ThrEv) : ThrSt :=
  evs.foldl (thrStep d) { time := 0, last := 0, sleeping := [], dispatches := [] }

/-! ## TestingCollectionManager.run_collection, two concurrent callers
(src/src/services/news_collector.py, lines 383-466)

The reentrancy guard (`if self.running: return ...; self.running =
True`) spans no `await`, so it is one atomic step of the cooperative
scheduler; each `collect_from_source` call awaits and is a separate
step; the `finally: self.running = False` is the final step.  A task
whose guard finds the flag set returns the `already_running` dict and
executes nothing further. -/

/-- Atomic steps of one `run_collection` call: the guard, one
per-source collection, the final reset-and-report. -/
inductive SweepInstr where
  | guard
  | collect (idx : Nat)
  | finish
deriving DecidableEq, Repr

/-- The step list of one call over `n` eligible sources. -/
def sweepProg (n : Nat) : List SweepInstr :=
  .guard :: (List.range n).map .collect ++ [.finish]

/-- State of two concurrent `run_collection` calls, A and B: the shared
flag, each task's remaining steps, each task's report once returned
(`true` = the `already_running` dict, `false` = a completed report),
and the log of `collect_from_source` invocations `(isB, source idx)` in
order. -/
structure TwoSweepSt where
  running : Bool
  remA : List SweepInstr
  remB : List SweepInstr
  repA : Option Bool
  repB : Option Bool
  log : List (Bool × Nat)
deriving DecidableEq, Repr

/-- Execute one step of task A (`tid = false`) or B (`tid = true`);
scheduling a task with no remaining steps does nothing. -/
def sweepStep (st : TwoSweepSt) (tid : Bool) : TwoSweepSt :=
  let rem := if tid then st.remB else st.remA
  match rem with
  | [] => st
  | i :: rest =>
    match i with
    | .guard =>
      if st.running then
        if tid then { st with remB := [], repB := some true }
        else { st with remA := [], repA := some true }
      else
        if tid then { st with running := true, remB := rest }
        else { st with running := true, remA := rest }
    | .collect idx =>
      let st' := { st with log := st.log ++ [(tid, idx)] }
      if tid then { st' with remB := rest } else { st' with remA := rest }
    | .finish =>
      if tid then { st with running := false, remB := rest, repB := some false }
      else { st with running := false, remA := rest, repA := some false }

/-- Run a schedule (a list of task choices) with both tasks about to
call `run_collection` over the same `n` eligible sources. -/
def runSweeps (n : Nat) (sched : List Bool) : TwoSweepSt :=
  sched.foldl sweepStep
    { running := false, remA := sweepProg n, remB := sweepProg n,
      repA := none, repB := none, log := [] }

/-! # Theorems -/

/-! ## Shared lemmas -/

/-- Under any transport failure, `analyze_article` returns the
source-metadata extension of the extraction of the serialized fallback
analysis of the whole prompt. -/
theorem analyze_eq_fallback (tok : String → List String) (t : Transport)
    (text src url now : String) (hf : transportFails t = true) :
    analyze_article tok t text src url now =
      jset (jset (jset (extract_json_from_response
            (jdumps (fallback_analysis tok (promptFor src text))))
          "source_url" (.jstr url))
        "source_name" (.jstr src))
      "processed_at" (.jstr now) := by
  cases t with
  | ok status body =>
    simp only [transportFails, decide_eq_true_eq] at hf
    simp [analyze_article, make_ollama_request, hf]
  | timeout => rfl
  | connError => rfl

/-- Strings with equal character data are equal. -/
theorem strExt {a b : String} (h : a.data = b.data) : a = b := by
  cases a; cases b; exact congrArg String.mk h

/-! ## C6 — fetchBody / extract_article_content -/

/-- The amended specification of `extract_article_content`, written
from the corrected spec wording: concatenate, over ALL rules in order,
every matched element's text followed by a blank line; strip; `none`
when the fetch failed or nothing was extracted. -/
def extractAllRulesSpec (fetched : Option (String → List String))
    (sels : List String) : Option String :=
  match fetched with
  | none => none
  | some doc =>
    let c := trimS (String.join (sels.map
      (fun sel => String.join ((doc sel).map (fun t => t ++ "\n\n")))))
    if c = "" then none else some c

/-- Data-level unrolling of the inner element fold. -/
theorem foldl_sep_data (l : List String) (acc : String) :
    (l.foldl (fun a t => a ++ t ++ "\n\n") acc).data
      = acc.data ++ ((l.map (fun t => t ++ "\n\n")).map String.data).flatten := by
  induction l generalizing acc with
  | nil => simp
  | cons s t ih => simp [List.foldl, ih, List.append_assoc]

/-- Data-level unrolling of the selector fold. -/
theorem foldl_doc_data (doc : String → List String) (sels : List String)
    (acc : String) :
    (sels.foldl (fun a sel => (doc sel).foldl (fun a t => a ++ t ++ "\n\n") a) acc).data
      = acc.data ++ (sels.map (fun sel =>
          (((doc sel).map (fun t => t ++ "\n\n")).map String.data).flatten)).flatten := by
  induction sels generalizing acc with
  | nil => simp
  | cons s t ih => simp [List.foldl, ih, foldl_sep_data, List.append_assoc]

/-- C6 (amended): `extract_article_content` concatenates the text of
every rule in order (each element followed by a blank line, the result
stripped), rather than stopping at the first rule that yields text; it
still returns null when the fetch fails or nothing at all is
extracted. -/
theorem extract_article_content_concats_all_rules
    (fetched : Option (String → List String)) (sels : List String) :
    extract_article_content fetched sels = extractAllRulesSpec fetched sels := by
  cases fetched with
  | none => rfl
  | some doc =>
    have hc : (sels.foldl (fun a sel => (doc sel).foldl
          (fun a t => a ++ t ++ "\n\n") a) "")
        = String.join (sels.map
          (fun sel => String.join ((doc sel).map (fun t => t ++ "\n\n")))) := by
      apply strExt
      simp [foldl_doc_data, Function.comp_def]
    simp only [extract_article_content, extractAllRulesSpec, hc]

/-- The concrete two-rule page of the C6 counterexample: the first rule
extracts "First", the second "Second". -/
def docC6 : String → List String := fun sel =>
  if sel = "h1" then ["First"] else if sel = "p" then ["Second"] else []

/-- C6 (counterexample): with two rules both yielding text, the claim
says the result is the first rule's text "First"; the code returns the
concatenation of both. -/
theorem extract_article_content_not_first_rule :
    extract_article_content (some docC6) ["h1", "p"]
        = some ("First" ++ "\n\n" ++ "Second") ∧
      extract_article_content (some docC6) ["h1", "p"] ≠ some "First" := by
  constructor
  · decide
  · decide

/-! ## C5 — one-feed sweep scenario and the RunReport counters -/

/-- The C5 feed source: active FEED source, never collected. -/
def srcC5 : SourceRec :=
  { id := "s1", name := "TestFeed", url := "http://feed.example/rss",
    source_type := "rss_feed", is_active := true,
    last_collected_at := none, collection_frequency := 30 }

/-- The C5 environment: the feed has entries A and B, both bodies
fetch, analysis gives A severity 6 / relevance 70 and B severity 1 /
relevance 5. -/
def envC5 : CollectEnv :=
  { feedOf := fun u =>
      if u = "http://feed.example/rss" then
        [{ title := "A", link := "http://a", published := "" },
         { title := "B", link := "http://b", published := "" }]
      else []
    fetchContent := fun u =>
      if u = "http://a" then some "body A"
      else if u = "http://b" then some "body B"
      else none
    analyzeRes := fun _ _ url =>
      if url = "http://a" then
        [("title", .jstr "Threat A"), ("description", .jstr "desc A"),
         ("category", .jstr "security_incident"), ("severity", .jnum 6 1),
         ("confidence_score", .jnum 8 10), ("missionary_relevance", .jnum 70 1),
         ("status", .jstr "active")]
      else
        [("title", .jstr "B"), ("severity", .jnum 1 1),
         ("missionary_relevance", .jnum 5 1)]
    geoOf := fun _ _ => (none, none)
    nowSec := 0 }

/-- C5 (counterexample): in the stipulated scenario the claim says the
report has `articles_processed = 1` (counting persisted records); the
code counts every analyzed article, so the report is
`{sources_processed := 1, articles_collected := 2,
articles_processed := 2, errors := 0}`. -/
theorem run_collection_processed_counts_analyzed :
    (run_collection envC5 false [srcC5] none).1 ≠ RunRep.completed 1 2 1 0 ∧
      (run_collection envC5 false [srcC5] none).1 = RunRep.completed 1 2 2 0 := by
  constructor
  · decide
  · decide

/-- C5 (amended): same scenario; the threshold filter persists exactly
one record (entry A), the report counts both entries as collected and
processed, one source processed and zero errors. -/
theorem run_collection_scenario_report :
    (run_collection envC5 false [srcC5] none).1 = RunRep.completed 1 2 2 0 ∧
      ((run_collection envC5 false [srcC5] none).2.1.map
        (fun th => th.source_url)) = ["http://a"] ∧
      ((run_collection envC5 false [srcC5] none).2.1.map
        (fun th => th.severity)) = [(6, 1)] := by
  refine ⟨by decide, by decide, by decide⟩

/-! ## C3 — the AnalysisEngine throttle -/

/-- C3 (amended, sequential part): for two consecutive sequential
invocations the second dispatch is at least the configured delay after
the first, whatever the stored state and clock readings. -/
theorem throttle_sequential_spacing (d last now1 now2 : ℚ) :
    (throttle_step d last now1).1 + d
      ≤ (throttle_step d (throttle_step d last now1).2 now2).1 := by
  unfold throttle_step
  split_ifs with h1 h2 h3 <;> simp at * <;> linarith

/-- C3 (counterexample, concurrent part): a dispatch at time 100, then
two callers entering during the throttle window.  Both read the same
`last_request_time` (it is updated only after the sleep), both sleep
until 102, and both dispatch at 102: consecutive dispatches 0 < 2
seconds apart, refuting the claimed spacing under concurrent
callers. -/
theorem throttle_concurrent_dispatches_collide :
    (runThr 2 [.advance 100, .enter 0, .enter 1, .enter 2, .advance 2,
        .wake 1, .wake 2]).dispatches
      = [(0, 100), (1, 102), (2, 102)] ∧ ¬((102 : Int) + 2 ≤ 102) := by
  constructor
  · decide
  · decide

/-! ## C8 — fallback severity formula -/

/-- One keyword hit ("storm") among 36 words: `100 × 1 / 36 = 2.77...`,
which `int()` truncates to 2 while rounding gives 3. -/
def cxTextC8 : String := String.intercalate " " ("storm" :: List.replicate 35 "zz")

/-- C8 (counterexample): on `cxTextC8` the code computes severity 2
(truncating division) while the claimed formula
`clamp(1, 10, round(100 × totalHits / wordCount))` gives 3. -/
theorem fallback_severity_truncates_not_rounds :
    fallbackSeverity cxTextC8 = 2 ∧
      min 10 (max 1 (round ((100 * (totalMatches cxTextC8 : ℚ))
        / (wordCount cxTextC8 : ℚ)))) = 3 := by
  have h1 : totalMatches cxTextC8 = 1 := by decide
  have h2 : wordCount cxTextC8 = 36 := by decide
  refine ⟨by decide, ?_⟩
  rw [h1, h2]
  have : ((100 * ((1 : ℕ) : ℚ)) / ((36 : ℕ) : ℚ)) = 25 / 9 := by norm_num
  rw [this, round_eq]
  have : ((25 : ℚ) / 9 + 1 / 2) = 59 / 18 := by norm_num
  rw [this]
  have hf : ⌊(59 / 18 : ℚ)⌋ = 3 := by
    rw [Int.floor_eq_iff]
    norm_num
  rw [hf]
  norm_num

/-- C8 (amended): the severity equals
`clamp(1, 10, floor(100 × totalHits / max(1, wordCount)))` — the same
formula with truncating (floor) division instead of rounding, and with
the divisor floored at 1 as the code does. -/
theorem fallback_severity_floor_formula (text : String) :
    (fallbackSeverity text : Int)
      = min 10 (max 1 ⌊(100 * (totalMatches text : ℚ))
          / ((max 1 (wordCount text) : ℕ) : ℚ)⌋) := by
  have key := Rat.floor_intCast_div_natCast
    ((100 * totalMatches text : ℕ) : ℤ) (max 1 (wordCount text))
  have hl : (((100 * totalMatches text : ℕ) : ℤ) : ℚ)
      = 100 * (totalMatches text : ℚ) := by push_cast; ring
  rw [hl] at key
  rw [key, fallbackSeverity]
  have hd : ((100 * totalMatches text : ℕ) : ℤ) / ((max 1 (wordCount text) : ℕ) : ℤ)
      = (((100 * totalMatches text) / max 1 (wordCount text) : ℕ) : ℤ) := by
    rw [Int.natCast_div]
  rw [hd]
  push_cast [Nat.cast_min, Nat.cast_max]
  norm_num

/-! ## C7 — fallback category selection -/

/-- Helper: score lookup for six abstract per-category scores in
declaration order. -/
def sixScore (a b c d e f : Nat) : ThreatCategory → Nat
  | .political_unrest => a
  | .transport_disruption => b
  | .weather_emergency => c
  | .security_incident => d
  | .economic_impact => e
  | .health_emergency => f

/-- Helper: Python's `max(category_scores, key=category_scores.get)`
over the six-entry dict returns the value-string of the first
declaration-order category attaining the maximal score. -/
theorem pyMaxFst_six (a b c d e f : Nat) :
    ∃ cat : ThreatCategory,
      pyMaxFst [("political_unrest", a), ("transport_disruption", b),
        ("weather_emergency", c), ("security_incident", d),
        ("economic_impact", e), ("health_emergency", f)] = categoryValue cat ∧
      (∀ c' : ThreatCategory,
        sixScore a b c d e f c' ≤ sixScore a b c d e f cat) ∧
      (∀ c' : ThreatCategory,
        sixScore a b c d e f c' = sixScore a b c d e f cat →
          catIdx cat ≤ catIdx c') := by
  simp only [pyMaxFst, List.foldl]
  split_ifs <;>
    first
    | (refine ⟨.political_unrest, rfl, fun c' => ?_, fun c' hc => ?_⟩ <;>
        cases c' <;> simp_all [sixScore, catIdx] <;> omega)
    | (refine ⟨.transport_disruption, rfl, fun c' => ?_, fun c' hc => ?_⟩ <;>
        cases c' <;> simp_all [sixScore, catIdx] <;> omega)
    | (refine ⟨.weather_emergency, rfl, fun c' => ?_, fun c' hc => ?_⟩ <;>
        cases c' <;> simp_all [sixScore, catIdx] <;> omega)
    | (refine ⟨.security_incident, rfl, fun c' => ?_, fun c' hc => ?_⟩ <;>
        cases c' <;> simp_all [sixScore, catIdx] <;> omega)
    | (refine ⟨.economic_impact, rfl, fun c' => ?_, fun c' hc => ?_⟩ <;>
        cases c' <;> simp_all [sixScore, catIdx] <;> omega)
    | (refine ⟨.health_emergency, rfl, fun c' => ?_, fun c' hc => ?_⟩ <;>
        cases c' <;> simp_all [sixScore, catIdx] <;> omega)

/-- Helper: the per-category hit count equals `sixScore` of the six
hit counts in declaration order. -/
theorem catHits_eq_sixScore (text : String) (c' : ThreatCategory) :
    catHits c' (lowerS text).data
      = sixScore
          (catHits .political_unrest (lowerS text).data)
          (catHits .transport_disruption (lowerS text).data)
          (catHits .weather_emergency (lowerS text).data)
          (catHits .security_incident (lowerS text).data)
          (catHits .economic_impact (lowerS text).data)
          (catHits .health_emergency (lowerS text).data) c' := by
  cases c' <;> rfl

/-- C7: for every text, the category `_fallback_analysis` picks is one
whose keyword set has the most hits in the lowercased text, and on a
tie it is the earliest-declared category of the enumeration. -/
theorem fallback_category_first_argmax (text : String) :
    ∃ cat : ThreatCategory,
      primary_category text = categoryValue cat ∧
      (∀ c' : ThreatCategory,
        catHits c' (lowerS text).data ≤ catHits cat (lowerS text).data) ∧
      (∀ c' : ThreatCategory,
        catHits c' (lowerS text).data = catHits cat (lowerS text).data →
          catIdx cat ≤ catIdx c') := by
  obtain ⟨cat, h1, h2, h3⟩ := pyMaxFst_six
    (catHits .political_unrest (lowerS text).data)
    (catHits .transport_disruption (lowerS text).data)
    (catHits .weather_emergency (lowerS text).data)
    (catHits .security_incident (lowerS text).data)
    (catHits .economic_impact (lowerS text).data)
    (catHits .health_emergency (lowerS text).data)
  have hpc : primary_category text
      = pyMaxFst [("political_unrest", catHits .political_unrest (lowerS text).data),
          ("transport_disruption", catHits .transport_disruption (lowerS text).data),
          ("weather_emergency", catHits .weather_emergency (lowerS text).data),
          ("security_incident", catHits .security_incident (lowerS text).data),
          ("economic_impact", catHits .economic_impact (lowerS text).data),
          ("health_emergency", catHits .health_emergency (lowerS text).data)] := rfl
  refine ⟨cat, hpc.trans h1, ?_, ?_⟩
  · intro c'
    rw [catHits_eq_sixScore text c', catHits_eq_sixScore text cat]
    exact h2 c'
  · intro c' hc
    rw [catHits_eq_sixScore text c', catHits_eq_sixScore text cat] at hc
    exact h3 c' hc

/-! ## C1, C2, C10 — analyze_article under failure -/

/-- C10: under any transport failure the fallback analysis is computed
over the entire prompt (the fixed instruction template with the article
text embedded), not over the article text alone.  Concretely, with an
empty article text: the template word "threat" is a substring of the
lowercased prompt and gives SECURITY_INCIDENT one keyword hit, while
the empty text alone scores zero; and the fallback description (the
leading sentences of the prompt) contains the template's own words. -/
theorem analyze_article_fallback_on_prompt :
    (∀ (tok : String → List String) (t : Transport) (text src url now : String),
        transportFails t = true →
        analyze_article tok t text src url now
          = jset (jset (jset (extract_json_from_response
                (jdumps (fallback_analysis tok (promptFor src text))))
              "source_url" (.jstr url)) "source_name" (.jstr src))
            "processed_at" (.jstr now)) ∧
    subL "threat".data (lowerS (promptFor "BBC" "")).data = true ∧
    1 ≤ catHits .security_incident (lowerS (promptFor "BBC" "")).data ∧
    catHits .security_incident (lowerS "").data = 0 ∧
    subL "intelligence analyst".data
        (jgetStrD (fallback_analysis tokNaive (promptFor "BBC" "")) "description" "").data
      = true := by
  refine ⟨fun tok t text src url now hf => analyze_eq_fallback tok t text src url now hf,
    by decide, by decide, by decide, by decide⟩

/-- Witness for C10's universally quantified conjunct: the equation
instantiated at a concrete timeout call with empty article text. -/
theorem analyze_article_fallback_on_prompt_witness :
    analyze_article tokNaive .timeout "" "BBC" "http://u" "t0"
      = jset (jset (jset (extract_json_from_response
            (jdumps (fallback_analysis tokNaive (promptFor "BBC" ""))))
          "source_url" (.jstr "http://u")) "source_name" (.jstr "BBC"))
        "processed_at" (.jstr "t0") :=
  analyze_article_fallback_on_prompt.1 tokNaive .timeout "" "BBC" "http://u" "t0" (by decide)

/-! ## C4 — sweep reentrancy -/

/-- Helper: scheduling task A for `js.length` consecutive steps while
its remaining program is a block of collect steps executes exactly
those collects, appending them to the log in order. -/
theorem runA_collects (js : List Nat) (rest : List SweepInstr)
    (run : Bool) (remB : List SweepInstr) (repA repB : Option Bool)
    (log : List (Bool × Nat)) :
    (List.replicate js.length false).foldl sweepStep
        ⟨run, js.map .collect ++ rest, remB, repA, repB, log⟩
      = ⟨run, rest, remB, repA, repB, log ++ js.map (fun i => (false, i))⟩ := by
  induction js generalizing log with
  | nil => simp
  | cons j t ih =>
    simp only [List.map_cons, List.cons_append, List.length_cons,
      List.replicate_succ, List.foldl_cons]
    have hstep : sweepStep
        ⟨run, .collect j :: (t.map .collect ++ rest), remB, repA, repB, log⟩ false
        = ⟨run, t.map .collect ++ rest, remB, repA, repB, log ++ [(false, j)]⟩ := by
      simp [sweepStep]
    rw [hstep, ih]
    simp

/-- C4: (a) a `run_collection` call made while the manager is already
running returns the distinguished `already_running` report immediately,
persists nothing and flips no state; (b) in the two-caller machine,
whenever caller B's guard executes anywhere strictly inside caller A's
run (after A's guard, before A's finish — the only schedules in which
the two calls overlap), B reports `already_running` and the log shows
exactly one collect per eligible source, all by A, in order. -/
theorem run_collection_reentrancy (n k : Nat) (hk : k ≤ n) :
    (∀ env sources sid,
      run_collection env true sources sid = (.alreadyRunning, [], true)) ∧
    ((runSweeps n (List.replicate (k + 1) false ++ [true]
          ++ List.replicate (n - k + 1) false)).repB = some true ∧
     (runSweeps n (List.replicate (k + 1) false ++ [true]
          ++ List.replicate (n - k + 1) false)).repA = some false ∧
     (runSweeps n (List.replicate (k + 1) false ++ [true]
          ++ List.replicate (n - k + 1) false)).log
        = (List.range n).map (fun i => (false, i))) := by
  constructor
  · intro env sources sid
    rfl
  · have hn : k + (n - k) = n := by omega
    have hsplitA : (List.range n).map SweepInstr.collect
        = (List.range k).map SweepInstr.collect
          ++ ((List.range (n - k)).map (k + ·)).map SweepInstr.collect := by
      rw [← List.map_append, ← List.range_add, hn]
    have hrepk : List.replicate k (false : Bool)
        = List.replicate (List.range k).length false := by
      rw [List.length_range]
    have hrepnk : List.replicate (n - k) (false : Bool)
        = List.replicate ((List.range (n - k)).map (k + ·)).length false := by
      rw [List.length_map, List.length_range]
    have hlog : (List.range k).map (fun i => ((false : Bool), i))
          ++ ((List.range (n - k)).map (k + ·)).map (fun i => ((false : Bool), i))
        = (List.range n).map (fun i => ((false : Bool), i)) := by
      have h := congrArg (List.map (fun i => ((false : Bool), i)))
        (List.range_add k (n - k))
      rw [hn, List.map_append] at h
      exact h.symm
    have hfin : runSweeps n (List.replicate (k + 1) false ++ [true]
          ++ List.replicate (n - k + 1) false)
        = ⟨false, [], [], some false, some true,
            (List.range n).map (fun i => (false, i))⟩ := by
      unfold runSweeps
      rw [List.replicate_succ, List.replicate_succ']
      simp only [List.foldl_append, List.foldl_cons, List.foldl_nil]
      have h0 : sweepStep
          ⟨false, sweepProg n, sweepProg n, none, none, []⟩ false
          = ⟨true, (List.range k).map SweepInstr.collect
              ++ (((List.range (n - k)).map (k + ·)).map SweepInstr.collect
                ++ [.finish]), sweepProg n, none, none, []⟩ := by
        simp [sweepStep, sweepProg, hsplitA, List.append_assoc]
      rw [h0, hrepk,
        runA_collects (List.range k)
          (((List.range (n - k)).map (k + ·)).map SweepInstr.collect
            ++ [SweepInstr.finish]) true (sweepProg n) none none []]
      simp only [List.nil_append]
      have h2 : sweepStep
          ⟨true, ((List.range (n - k)).map (k + ·)).map SweepInstr.collect
              ++ [.finish], sweepProg n, none, none,
            (List.range k).map (fun i => (false, i))⟩ true
          = ⟨true, ((List.range (n - k)).map (k + ·)).map SweepInstr.collect
              ++ [.finish], [], none, some true,
            (List.range k).map (fun i => (false, i))⟩ := by
        simp [sweepStep, sweepProg]
      rw [h2, hrepnk,
        runA_collects ((List.range (n - k)).map (k + ·)) [SweepInstr.finish] true []
          none (some true) ((List.range k).map (fun i => (false, i)))]
      have h4 : sweepStep
          ⟨true, [SweepInstr.finish], [], none, some true,
            (List.range k).map (fun i => (false, i))
              ++ ((List.range (n - k)).map (k + ·)).map (fun i => (false, i))⟩ false
          = ⟨false, [], [], some false, some true,
            (List.range k).map (fun i => (false, i))
              ++ ((List.range (n - k)).map (k + ·)).map (fun i => (false, i))⟩ := by
        simp [sweepStep]
      rw [h4, hlog]
    rw [hfin]
    exact ⟨rfl, rfl, rfl⟩

/-- Witness for C4: two sources, B's guard after A's first collect. -/
theorem run_collection_reentrancy_witness :
    (∀ env sources sid,
      run_collection env true sources sid = (.alreadyRunning, [], true)) ∧
    ((runSweeps 2 (List.replicate 2 false ++ [true]
          ++ List.replicate 2 false)).repB = some true ∧
     (runSweeps 2 (List.replicate 2 false ++ [true]
          ++ List.replicate 2 false)).repA = some false ∧
     (runSweeps 2 (List.replicate 2 false ++ [true]
          ++ List.replicate 2 false)).log
        = (List.range 2).map (fun i => (false, i))) :=
  run_collection_reentrancy 2 1 (by decide)

/-! ## C9 — LifecycleUpdater scenarios -/

/-- C9: after one `update_threat_statuses` run, an ACTIVE record
created 8 days ago is MONITORING, a MONITORING record created 31 days
ago is RESOLVED, and an ACTIVE record created 3 days ago is unchanged;
age is measured from `created_at` in both checks, and the two update
counts are 1 and 1. -/
theorem lifecycle_advance_scenarios (now : Int) :
    update_threat_statuses now
      [⟨.active, now - 8 * daySec⟩, ⟨.monitoring, now - 31 * daySec⟩,
       ⟨.active, now - 3 * daySec⟩] =
    ([⟨.monitoring, now - 8 * daySec⟩, ⟨.resolved, now - 31 * daySec⟩,
      ⟨.active, now - 3 * daySec⟩], 1, 1) := by
  have h8 : now - 8 * daySec < now - 7 * daySec := by simp only [daySec]; omega
  have h3 : ¬ now - 3 * daySec < now - 7 * daySec := by simp only [daySec]; omega
  have h31 : now - 31 * daySec < now - 30 * daySec := by simp only [daySec]; omega
  simp [update_threat_statuses, List.countP_cons, h8, h3, h31]

end WK
